import Mathlib

/-!
Verification of the bio-generation orchestration of the
`node-ai-integration` backend (src/src/services/aiService.js and the
bio-related control flow of src/src/controllers/userController.js).

The network behaviour of the two text-generation providers is abstracted
by oracles: `oracleA prompt k` is the outcome of the `k`-th network call
to the OpenAI client (counting from 0), and `oracleB prompt` the outcome
of a call to the Gemini client.  Every other piece of the JavaScript code
is translated directly: configuration truthiness, the placeholder check
for the Gemini key, the retry loop with exponential backoff, the
non-retryable error classification, the fallback composition in
`generateBio`, `getServiceStatus`, and the controller policies around
bio failures.  Besides the provider result, each modelled entry point
returns the number of network calls made to each provider and the list
of backoff delays (in milliseconds) that were slept.
-/

/-- An error raised by a provider client, as the retry logic sees it:
JavaScript error objects are inspected only through `message`, `status`
and `code` (aiService.js lines 151-163, 192-206). -/
structure AIError where
  message : String
  status : Option Nat
  code : Option String
deriving Repr, DecidableEq

/-- JavaScript truthiness of an environment variable: `undefined` and the
empty string are falsy, any other string is truthy. -/
def truthy : Option String → Bool
  | none => false
  | some s => !(s == "")

/-- The recognised placeholder value for the Gemini key
(aiService.js line 18). -/
def geminiPlaceholder : String := "your_gemini_api_key_here"

/-- The state of the `AIService` singleton: the two environment values it
reads, and whether each client object was initialised by the constructor
(`this.openai` and `this.geminiModel` being non-null). -/
structure AIService where
  envOpenAIKey : Option String
  envGeminiKey : Option String
  openai : Bool
  geminiModel : Bool
deriving Repr, DecidableEq

/-- The `AIService` constructor (aiService.js lines 6-27): the OpenAI
client is created iff `OPENAI_API_KEY` is truthy; the Gemini client is
created iff `GEMINI_API_KEY` is truthy and differs from the placeholder. -/
def mkAIService (envOpenAIKey envGeminiKey : Option String) : AIService :=
  { envOpenAIKey := envOpenAIKey
    envGeminiKey := envGeminiKey
    openai := truthy envOpenAIKey
    geminiModel := truthy envGeminiKey && !(envGeminiKey == some geminiPlaceholder) }

/-- The user prompt sent to OpenAI (aiService.js line 41). -/
def openaiPrompt (name role : String) : String :=
  "Generate a comprehensive, professional bio (100-200 words) for a person named "
    ++ name ++ " who works as a " ++ role
    ++ ". The bio should be engaging, professional, and highlight their expertise, experience, and passion for their field. Include details about their skills, approach to work, and commitment to excellence. Do not include any personal information beyond what\x27s provided."

/-- The prompt sent to Gemini (aiService.js lines 91-101). -/
def geminiPrompt (name role : String) : String :=
  "Generate a professional bio for " ++ name ++ " who is a " ++ role
    ++ ". \n      \n      Requirements:\n      - Write in third person\n      - Length: 100-200 words\n      - Professional tone\n      - Include expertise, experience, and key qualities\n      - Focus on professional achievements and skills\n      - Make it engaging and well-structured\n      \n      Do not include any formatting, just return the bio text."

/-- `generateBioWithOpenAI` (aiService.js lines 35-77): if the client is
not initialised, throw without any network call; otherwise make one
network call (the `calls`-th so far) and on success return the trimmed
content.  Returns the outcome together with the updated call count. -/
def generateBioWithOpenAI (s : AIService)
    (oracleA : String → Nat → Except AIError String)
    (name role : String) (calls : Nat) : Except AIError String × Nat :=
  if !s.openai then
    (Except.error ⟨"OpenAI client not initialized", none, none⟩, calls)
  else
    match oracleA (openaiPrompt name role) calls with
    | Except.ok raw => (Except.ok raw.trim, calls + 1)
    | Except.error e => (Except.error e, calls + 1)

/-- `generateBioWithGemini` (aiService.js lines 85-121): if the model is
not configured, throw without any network call; otherwise make one
network call and on success return the trimmed text.  The second
component is the number of Gemini network calls made (0 or 1). -/
def generateBioWithGemini (s : AIService)
    (oracleB : String → Except AIError String)
    (name role : String) : Except AIError String × Nat :=
  if !s.geminiModel then
    (Except.error ⟨"Gemini API is not configured", none, none⟩, 0)
  else
    match oracleB (geminiPrompt name role) with
    | Except.ok raw => (Except.ok raw.trim, 1)
    | Except.error e => (Except.error e, 1)

/-- Classification of non-retryable errors (aiService.js line 160):
`error.status === 401 || error.status === 403 || error.code === 'invalid_api_key'`. -/
def nonRetryable (e : AIError) : Bool :=
  e.status == some 401 || e.status == some 403 || e.code == some "invalid_api_key"

deriving instance DecidableEq for Except

/-- Outcome of the retry loop: the result, the number of OpenAI network
calls made, and the backoff delays (ms) slept between attempts. -/
structure RetryOut where
  result : Except AIError String
  calls : Nat
  delays : List Nat
deriving Repr, DecidableEq

/-- The body of the retry loop of `generateBioWithRetry` (aiService.js
lines 143-176).  `fuel` is the number of loop iterations still allowed
(initially `maxRetries`), `attempt` the 1-based attempt counter, `calls`
and `delays` the trace accumulated so far, and `lastError` the last
caught error.  When the fuel runs out, the loop has exited and the last
error is thrown. -/
def retryGo (s : AIService) (oracleA : String → Nat → Except AIError String)
    (name role : String) (maxRetries baseDelay : Nat) :
    Nat → Nat → Nat → List Nat → Option AIError → RetryOut
  | 0, _, calls, delays, lastError =>
      ⟨Except.error (lastError.getD ⟨"undefined", none, none⟩), calls, delays⟩
  | fuel + 1, attempt, calls, delays, _ =>
      match generateBioWithOpenAI s oracleA name role calls with
      | (Except.ok bio, calls2) => ⟨Except.ok bio, calls2, delays⟩
      | (Except.error e, calls2) =>
        if nonRetryable e then
          ⟨Except.error e, calls2, delays⟩
        else if attempt < maxRetries then
          retryGo s oracleA name role maxRetries baseDelay fuel (attempt + 1)
            calls2 (delays ++ [baseDelay * 2 ^ (attempt - 1)]) (some e)
        else
          ⟨Except.error e, calls2, delays⟩

/-- `generateBioWithRetry` (aiService.js lines 140-177): run the loop
starting at attempt 1 with no trace.  The source defaults are
`maxRetries = 3`, `baseDelay = 1000`; callers pass them explicitly here. -/
def generateBioWithRetry (s : AIService)
    (oracleA : String → Nat → Except AIError String)
    (name role : String) (maxRetries baseDelay : Nat) : RetryOut :=
  retryGo s oracleA name role maxRetries baseDelay maxRetries 1 0 [] none

/-- The error thrown when both providers fail (aiService.js line 206). -/
def bioGenerationFailedError (e ge : AIError) : AIError :=
  ⟨"Bio generation failed: OpenAI (" ++ e.message ++ ") and Gemini ("
      ++ ge.message ++ ") both failed", none, none⟩

/-- The error thrown when no provider is configured (aiService.js line 222). -/
def noProviderError : AIError :=
  ⟨"No AI service is configured. Please set either OPENAI_API_KEY or GEMINI_API_KEY environment variable.", none, none⟩

/-- Full outcome of `generateBio`: the result, the number of network
calls to each provider, and the backoff delays slept. -/
structure BioOut where
  result : Except AIError String
  openaiCalls : Nat
  geminiCalls : Nat
  delays : List Nat
deriving Repr, DecidableEq

/-- `generateBio` (aiService.js lines 185-225): try OpenAI with retries
when `OPENAI_API_KEY` is truthy and the client exists; on failure fall
back to Gemini when configured, combining both messages if the fallback
also fails; without OpenAI use Gemini directly; otherwise throw
`noProviderError`. -/
def generateBio (s : AIService)
    (oracleA : String → Nat → Except AIError String)
    (oracleB : String → Except AIError String)
    (name role : String) : BioOut :=
  if truthy s.envOpenAIKey && s.openai then
    let r := generateBioWithRetry s oracleA name role 3 1000
    match r.result with
    | Except.ok bio => ⟨Except.ok bio, r.calls, 0, r.delays⟩
    | Except.error e =>
      if s.geminiModel then
        match generateBioWithGemini s oracleB name role with
        | (Except.ok bio, g) => ⟨Except.ok bio, r.calls, g, r.delays⟩
        | (Except.error ge, g) =>
          ⟨Except.error (bioGenerationFailedError e ge), r.calls, g, r.delays⟩
      else
        ⟨Except.error e, r.calls, 0, r.delays⟩
  else if s.geminiModel then
    match generateBioWithGemini s oracleB name role with
    | (Except.ok bio, g) => ⟨Except.ok bio, 0, g, []⟩
    | (Except.error ge, g) => ⟨Except.error ge, 0, g, []⟩
  else
    ⟨Except.error noProviderError, 0, 0, []⟩

/-- The object returned by `getServiceStatus` (aiService.js lines
237-242). -/
structure ServiceStatus where
  openai : Bool
  gemini : Bool
  hasAnyService : Bool
  fallback : Bool
deriving Repr, DecidableEq

/-- `getServiceStatus` (aiService.js lines 231-243). -/
def getServiceStatus (s : AIService) : ServiceStatus :=
  let openaiConfigured := truthy s.envOpenAIKey && s.openai
  let geminiConfigured := truthy s.envGeminiKey
    && !(s.envGeminiKey == some geminiPlaceholder) && s.geminiModel
  { openai := openaiConfigured
    gemini := geminiConfigured
    hasAnyService := openaiConfigured || geminiConfigured
    fallback := geminiConfigured }

/-- Outcome of the bio phase of the `createUser` controller: the HTTP
response on success (status 201) or the propagated error, plus whether a
user record was created. -/
structure CreateOutcome where
  response : Except AIError Nat
  userCreated : Bool
deriving Repr, DecidableEq

/-- The bio phase of `createUser` (userController.js lines 105-190):
`aiService.generateBio` runs before `User.create`; a bio error is
re-thrown by the inner catch, caught by the outer catch and passed to
`next(error)`, so no user record is created.  On success the user is
created and a 201 response is sent. -/
def createUserCore (bioResult : Except AIError String) : CreateOutcome :=
  match bioResult with
  | Except.ok _ => ⟨Except.ok 201, true⟩
  | Except.error e => ⟨Except.error e, false⟩

/-- Outcome of the bio-regeneration phase of the `updateUser` controller:
HTTP status, success flag, the bio stored on the user afterwards, and
whether a warning was logged for a failed regeneration. -/
structure UpdateOutcome where
  status : Nat
  success : Bool
  finalBio : String
  warnedBioFailure : Bool
deriving Repr, DecidableEq

/-- The bio-regeneration phase of `updateUser` (userController.js lines
408-419): the database update has already succeeded; if the role changed
(`shouldRegenerateBio`), a bio failure is caught, a warning logged and
the update completes with the current bio; the 200 response is sent in
every case. -/
def updateUserRegen (shouldRegenerateBio : Bool) (currentBio : String)
    (bioResult : Except AIError String) : UpdateOutcome :=
  if shouldRegenerateBio then
    match bioResult with
    | Except.ok newBio => ⟨200, true, newBio, false⟩
    | Except.error _ => ⟨200, true, currentBio, true⟩
  else
    ⟨200, true, currentBio, false⟩

/-- A JavaScript value as the `getAIStatus` handler manipulates it:
a boolean field or `undefined` (a missing property). -/
inductive JSVal where
  | undef : JSVal
  | bool : Bool → JSVal
deriving Repr, DecidableEq

/-- JavaScript truthiness of such a value. -/
def jsTruthy : JSVal → Bool
  | JSVal.undef => false
  | JSVal.bool b => b

/-- JavaScript `a || b`: the first operand if truthy, else the second. -/
def jsOr (a b : JSVal) : JSVal :=
  if jsTruthy a then a else b

/-- Property lookup on the object returned by `getServiceStatus`: its
fields are `openai`, `gemini`, `hasAnyService` and `fallback`; any other
property (in particular `huggingface`) is `undefined`. -/
def statusGet (st : ServiceStatus) : String → JSVal
  | "openai" => JSVal.bool st.openai
  | "gemini" => JSVal.bool st.gemini
  | "hasAnyService" => JSVal.bool st.hasAnyService
  | "fallback" => JSVal.bool st.fallback
  | _ => JSVal.undef

/-- The `configured` field computed by the `getAIStatus` handler
(userController.js line 483): `status.openai || status.huggingface`. -/
def getAIStatusConfigured (st : ServiceStatus) : JSVal :=
  jsOr (statusGet st "openai") (statusGet st "huggingface")

/-- C1: for every non-empty (name, role) with OpenAI configured, if the
OpenAI client fails with an authentication-class error (status 401, 403
or code invalid_api_key) on attempt 1, the retry loop aborts at once:
exactly one OpenAI network call, no backoff wait, and — Gemini being
configured — exactly one fallback call to Gemini. -/
theorem c1_auth_error_aborts_then_single_fallback
    (kA kB : Option String) (name role : String)
    (oracleA : String → Nat → Except AIError String)
    (oracleB : String → Except AIError String) (e : AIError)
    (hname : name ≠ "") (hrole : role ≠ "")
    (hA : truthy kA = true)
    (hB : (mkAIService kA kB).geminiModel = true)
    (hfail : oracleA (openaiPrompt name role) 0 = Except.error e)
    (hauth : nonRetryable e = true) :
    (generateBio (mkAIService kA kB) oracleA oracleB name role).openaiCalls = 1
      ∧ (generateBio (mkAIService kA kB) oracleA oracleB name role).delays = []
      ∧ (generateBio (mkAIService kA kB) oracleA oracleB name role).geminiCalls = 1 := by
  cases hg : oracleB (geminiPrompt name role) <;>
    simp [generateBio, generateBioWithRetry, retryGo, generateBioWithOpenAI,
      generateBioWithGemini, mkAIService, hA, hB, hfail, hauth, hg] <;>
    simp [mkAIService] at hB <;> simp [hB]

theorem c1_witness :
    (generateBio (mkAIService (some "sk-test") (some "gk-test"))
        (fun _ _ => Except.error ⟨"Incorrect API key provided", some 401, some "invalid_api_key"⟩)
        (fun _ => Except.ok "A generated bio.") "Ada" "Engineer").openaiCalls = 1
      ∧ (generateBio (mkAIService (some "sk-test") (some "gk-test"))
        (fun _ _ => Except.error ⟨"Incorrect API key provided", some 401, some "invalid_api_key"⟩)
        (fun _ => Except.ok "A generated bio.") "Ada" "Engineer").delays = []
      ∧ (generateBio (mkAIService (some "sk-test") (some "gk-test"))
        (fun _ _ => Except.error ⟨"Incorrect API key provided", some 401, some "invalid_api_key"⟩)
        (fun _ => Except.ok "A generated bio.") "Ada" "Engineer").geminiCalls = 1 :=
  c1_auth_error_aborts_then_single_fallback (some "sk-test") (some "gk-test")
    "Ada" "Engineer" _ _ ⟨"Incorrect API key provided", some 401, some "invalid_api_key"⟩
    (by decide) (by decide) (by decide) (by decide) rfl (by decide)

/-- C2: with OpenAI configured and the default parameters
(maxAttempts 3, baseDelay 1000), retryable failures on attempts 1 and 2
followed by success on attempt 3 make generateBio return the attempt-3
text (trimmed), with 3 OpenAI calls, waits of 1000 ms then 2000 ms, and
no Gemini call; and when the final attempt also fails retryably, no
further wait occurs and the loop exits carrying that last error. -/
theorem c2_transient_retries_with_backoff
    (kA kB : Option String) (name role : String)
    (oracleA oracleA2 : String → Nat → Except AIError String)
    (oracleB : String → Except AIError String)
    (e1 e2 e3 : AIError) (t : String)
    (hname : name ≠ "") (hrole : role ≠ "")
    (hA : truthy kA = true)
    (h0 : oracleA (openaiPrompt name role) 0 = Except.error e1)
    (h1 : oracleA (openaiPrompt name role) 1 = Except.error e2)
    (h2 : oracleA (openaiPrompt name role) 2 = Except.ok t)
    (k0 : oracleA2 (openaiPrompt name role) 0 = Except.error e1)
    (k1 : oracleA2 (openaiPrompt name role) 1 = Except.error e2)
    (k2 : oracleA2 (openaiPrompt name role) 2 = Except.error e3)
    (hr1 : nonRetryable e1 = false) (hr2 : nonRetryable e2 = false)
    (hr3 : nonRetryable e3 = false) :
    generateBio (mkAIService kA kB) oracleA oracleB name role
        = ⟨Except.ok t.trim, 3, 0, [1000, 2000]⟩
      ∧ generateBioWithRetry (mkAIService kA kB) oracleA2 name role 3 1000
        = ⟨Except.error e3, 3, [1000, 2000]⟩ := by
  constructor
  · simp [generateBio, generateBioWithRetry, retryGo, generateBioWithOpenAI,
      mkAIService, hA, h0, h1, h2, hr1, hr2]
  · simp [generateBioWithRetry, retryGo, generateBioWithOpenAI,
      mkAIService, hA, k0, k1, k2, hr1, hr2, hr3]

theorem c2_witness :
    generateBio (mkAIService (some "sk-test") none)
        (fun _ k => if k == 0 then Except.error ⟨"rate limited", some 429, none⟩
          else if k == 1 then Except.error ⟨"server error", some 500, none⟩
          else Except.ok " attempt three bio ")
        (fun _ => Except.error ⟨"unused", none, none⟩) "Ada" "Engineer"
        = ⟨Except.ok " attempt three bio ".trim, 3, 0, [1000, 2000]⟩
      ∧ generateBioWithRetry (mkAIService (some "sk-test") none)
        (fun _ k => if k == 0 then Except.error ⟨"rate limited", some 429, none⟩
          else if k == 1 then Except.error ⟨"server error", some 500, none⟩
          else Except.error ⟨"gateway timeout", some 504, none⟩)
        "Ada" "Engineer" 3 1000
        = ⟨Except.error ⟨"gateway timeout", some 504, none⟩, 3, [1000, 2000]⟩ :=
  c2_transient_retries_with_backoff (some "sk-test") none "Ada" "Engineer"
    _ _ _ ⟨"rate limited", some 429, none⟩ ⟨"server error", some 500, none⟩
    ⟨"gateway timeout", some 504, none⟩ " attempt three bio "
    (by decide) (by decide) (by decide) rfl rfl rfl rfl rfl rfl
    (by decide) (by decide) (by decide)

/-- C3: when OpenAI (configured) exhausts its 3 attempts on retryable
errors and the configured Gemini fallback also fails, generateBio fails
with the combined "Bio generation failed" error, whose message contains
both the last OpenAI error message and the Gemini error message. -/
theorem c3_both_fail_combined_message
    (kA kB : Option String) (name role : String)
    (oracleA : String → Nat → Except AIError String)
    (oracleB : String → Except AIError String)
    (e1 e2 e3 ge : AIError)
    (hname : name ≠ "") (hrole : role ≠ "")
    (hA : truthy kA = true)
    (hB : (mkAIService kA kB).geminiModel = true)
    (h0 : oracleA (openaiPrompt name role) 0 = Except.error e1)
    (h1 : oracleA (openaiPrompt name role) 1 = Except.error e2)
    (h2 : oracleA (openaiPrompt name role) 2 = Except.error e3)
    (hr1 : nonRetryable e1 = false) (hr2 : nonRetryable e2 = false)
    (hr3 : nonRetryable e3 = false)
    (hg : oracleB (geminiPrompt name role) = Except.error ge) :
    (generateBio (mkAIService kA kB) oracleA oracleB name role).result
        = Except.error (bioGenerationFailedError e3 ge)
      ∧ (∃ a b c, (bioGenerationFailedError e3 ge).message
        = a ++ e3.message ++ b ++ ge.message ++ c) := by
  constructor
  · simp [generateBio, generateBioWithRetry, retryGo, generateBioWithOpenAI,
      generateBioWithGemini, mkAIService, hA, hB, h0, h1, h2, hr1, hr2, hr3, hg]
    simp [mkAIService] at hB
    simp [hB, hg]
  · exact ⟨"Bio generation failed: OpenAI (", ") and Gemini (",
      ") both failed", rfl⟩

theorem c3_witness :
    (generateBio (mkAIService (some "sk-test") (some "gk-test"))
        (fun _ _ => Except.error ⟨"rate limited", some 429, none⟩)
        (fun _ => Except.error ⟨"quota exceeded", some 429, none⟩)
        "Ada" "Engineer").result
        = Except.error (bioGenerationFailedError ⟨"rate limited", some 429, none⟩
            ⟨"quota exceeded", some 429, none⟩)
      ∧ (∃ a b c, (bioGenerationFailedError ⟨"rate limited", some 429, none⟩
            ⟨"quota exceeded", some 429, none⟩).message
        = a ++ AIError.message ⟨"rate limited", some 429, none⟩ ++ b
            ++ AIError.message ⟨"quota exceeded", some 429, none⟩ ++ c) :=
  c3_both_fail_combined_message (some "sk-test") (some "gk-test") "Ada" "Engineer"
    _ _ ⟨"rate limited", some 429, none⟩ ⟨"rate limited", some 429, none⟩
    ⟨"rate limited", some 429, none⟩ ⟨"quota exceeded", some 429, none⟩
    (by decide) (by decide) (by decide) (by decide) rfl rfl rfl
    (by decide) (by decide) (by decide) rfl

/-- C4: with OpenAI configured and Gemini not configured, an OpenAI
failure — whether retryable errors exhaust all 3 attempts or a
non-retryable error aborts attempt 1 — is propagated by generateBio as
the provider's original error object, with message, status and code
unchanged, and no Gemini call is made. -/
theorem c4_no_fallback_propagates_original_error
    (kA kB : Option String) (name role : String)
    (oracleA oracleA2 : String → Nat → Except AIError String)
    (oracleB : String → Except AIError String)
    (e1 e2 e3 f : AIError)
    (hname : name ≠ "") (hrole : role ≠ "")
    (hA : truthy kA = true)
    (hB : (mkAIService kA kB).geminiModel = false)
    (h0 : oracleA (openaiPrompt name role) 0 = Except.error e1)
    (h1 : oracleA (openaiPrompt name role) 1 = Except.error e2)
    (h2 : oracleA (openaiPrompt name role) 2 = Except.error e3)
    (hr1 : nonRetryable e1 = false) (hr2 : nonRetryable e2 = false)
    (hr3 : nonRetryable e3 = false)
    (k0 : oracleA2 (openaiPrompt name role) 0 = Except.error f)
    (hf : nonRetryable f = true) :
    generateBio (mkAIService kA kB) oracleA oracleB name role
        = ⟨Except.error e3, 3, 0, [1000, 2000]⟩
      ∧ generateBio (mkAIService kA kB) oracleA2 oracleB name role
        = ⟨Except.error f, 1, 0, []⟩ := by
  have hB2 : (truthy kB && !(kB == some geminiPlaceholder)) = false := hB
  constructor
  · simp [generateBio, generateBioWithRetry, retryGo, generateBioWithOpenAI,
      mkAIService, hA, hB2, h0, h1, h2, hr1, hr2, hr3]
  · simp [generateBio, generateBioWithRetry, retryGo, generateBioWithOpenAI,
      mkAIService, hA, hB2, k0, hf]

theorem c4_witness :
    generateBio (mkAIService (some "sk-test") none)
        (fun _ _ => Except.error ⟨"service unavailable", some 503, none⟩)
        (fun _ => Except.ok "unused") "Ada" "Engineer"
        = ⟨Except.error ⟨"service unavailable", some 503, none⟩, 3, 0, [1000, 2000]⟩
      ∧ generateBio (mkAIService (some "sk-test") none)
        (fun _ _ => Except.error ⟨"Forbidden", some 403, some "invalid_api_key"⟩)
        (fun _ => Except.ok "unused") "Ada" "Engineer"
        = ⟨Except.error ⟨"Forbidden", some 403, some "invalid_api_key"⟩, 1, 0, []⟩ :=
  c4_no_fallback_propagates_original_error (some "sk-test") none "Ada" "Engineer"
    _ _ _ ⟨"service unavailable", some 503, none⟩ ⟨"service unavailable", some 503, none⟩
    ⟨"service unavailable", some 503, none⟩ ⟨"Forbidden", some 403, some "invalid_api_key"⟩
    (by decide) (by decide) (by decide) (by decide) rfl rfl rfl
    (by decide) (by decide) (by decide) rfl (by decide)

/-- C5: with neither provider configured, generateBio fails with the
no-provider-configured error and makes no provider network call. -/
theorem c5_no_provider_error_no_calls
    (kA kB : Option String) (name role : String)
    (oracleA : String → Nat → Except AIError String)
    (oracleB : String → Except AIError String)
    (hname : name ≠ "") (hrole : role ≠ "")
    (hA : truthy kA = false)
    (hB : (mkAIService kA kB).geminiModel = false) :
    generateBio (mkAIService kA kB) oracleA oracleB name role
      = ⟨Except.error noProviderError, 0, 0, []⟩ := by
  have hB2 : (truthy kB && !(kB == some geminiPlaceholder)) = false := hB
  simp [generateBio, mkAIService, hA, hB2]

theorem c5_witness :
    generateBio (mkAIService none (some "your_gemini_api_key_here"))
        (fun _ _ => Except.ok "unused")
        (fun _ => Except.ok "unused") "Ada" "Engineer"
      = ⟨Except.error noProviderError, 0, 0, []⟩ :=
  c5_no_provider_error_no_calls none (some "your_gemini_api_key_here")
    "Ada" "Engineer" _ _ (by decide) (by decide) (by decide) (by decide)

/-- C6: with OpenAI not configured and Gemini configured, generateBio
makes exactly one direct Gemini call — no OpenAI call, no retry, no
backoff — returning the trimmed Gemini text on success or propagating
its failure unchanged. -/
theorem c6_gemini_direct_single_call
    (kA kB : Option String) (name role : String)
    (oracleA : String → Nat → Except AIError String)
    (oracleB : String → Except AIError String)
    (hname : name ≠ "") (hrole : role ≠ "")
    (hA : truthy kA = false)
    (hB : (mkAIService kA kB).geminiModel = true) :
    generateBio (mkAIService kA kB) oracleA oracleB name role
      = match oracleB (geminiPrompt name role) with
        | Except.ok raw => ⟨Except.ok raw.trim, 0, 1, []⟩
        | Except.error e => ⟨Except.error e, 0, 1, []⟩ := by
  cases hg : oracleB (geminiPrompt name role) <;>
    simp [generateBio, generateBioWithGemini, mkAIService, hA, hB, hg] <;>
    simp [mkAIService] at hB <;> simp [hB, hg]

theorem c6_witness :
    generateBio (mkAIService none (some "gk-test"))
        (fun _ _ => Except.ok "unused")
        (fun _ => Except.ok " gemini bio ") "Ada" "Engineer"
      = match (fun _ => Except.ok " gemini bio " : String → Except AIError String)
          (geminiPrompt "Ada" "Engineer") with
        | Except.ok raw => ⟨Except.ok raw.trim, 0, 1, []⟩
        | Except.error e => ⟨Except.error e, 0, 1, []⟩ :=
  c6_gemini_direct_single_call none (some "gk-test") "Ada" "Engineer"
    _ _ (by decide) (by decide) (by decide) (by decide)

/-- C7: with OpenAI configured and its client succeeding on the first
attempt, generateBio returns the trimmed text after exactly one OpenAI
call, with no backoff delay and no Gemini call. -/
theorem c7_first_attempt_success
    (kA kB : Option String) (name role : String)
    (oracleA : String → Nat → Except AIError String)
    (oracleB : String → Except AIError String) (t : String)
    (hname : name ≠ "") (hrole : role ≠ "")
    (hA : truthy kA = true)
    (hok : oracleA (openaiPrompt name role) 0 = Except.ok t) :
    generateBio (mkAIService kA kB) oracleA oracleB name role
      = ⟨Except.ok t.trim, 1, 0, []⟩ := by
  simp [generateBio, generateBioWithRetry, retryGo, generateBioWithOpenAI,
    mkAIService, hA, hok]

theorem c7_witness :
    generateBio (mkAIService (some "sk-test") (some "gk-test"))
        (fun _ _ => Except.ok "  A first-try bio.  ")
        (fun _ => Except.ok "unused") "Ada" "Engineer"
      = ⟨Except.ok "  A first-try bio.  ".trim, 1, 0, []⟩ :=
  c7_first_attempt_success (some "sk-test") (some "gk-test") "Ada" "Engineer"
    _ _ "  A first-try bio.  " (by decide) (by decide) (by decide) rfl

/-- C8: getServiceStatus is a pure function of the configuration: the
openai field is true iff the OpenAI credential is present (truthy), the
gemini field is true iff the Gemini credential is present and differs
from the placeholder sentinel, hasAnyService is their disjunction and
fallback equals the gemini field. -/
theorem c8_service_status_pure (kA kB : Option String) :
    (getServiceStatus (mkAIService kA kB)).openai = truthy kA
      ∧ (getServiceStatus (mkAIService kA kB)).gemini
        = (truthy kB && !(kB == some geminiPlaceholder))
      ∧ (getServiceStatus (mkAIService kA kB)).hasAnyService
        = ((getServiceStatus (mkAIService kA kB)).openai
            || (getServiceStatus (mkAIService kA kB)).gemini)
      ∧ (getServiceStatus (mkAIService kA kB)).fallback
        = (getServiceStatus (mkAIService kA kB)).gemini := by
  cases htA : truthy kA <;> cases htB : truthy kB <;>
    cases hp : kB == some geminiPlaceholder <;>
    simp [getServiceStatus, mkAIService, htA, htB, hp]

/-- C9: a bio-generation failure during user creation fails the whole
createUser operation and no user record is created, while a
bio-regeneration failure during a role-changing update leaves updateUser
successful (status 200) with the previous bio, only a warning being
logged. -/
theorem c9_create_fails_update_tolerates (e : AIError) (bio0 : String) :
    createUserCore (Except.error e) = ⟨Except.error e, false⟩
      ∧ updateUserRegen true bio0 (Except.error e) = ⟨200, true, bio0, true⟩ :=
  ⟨rfl, rfl⟩

/-- C10: the getAIStatus handler computes its configured field as
status.openai || status.huggingface, but the status object has no
huggingface field (lookup gives undefined), so configured is the boolean
true exactly when OpenAI is configured and is undefined otherwise; in
particular a Gemini-only configuration yields a non-true configured even
though hasAnyService is true. -/
theorem c10_configured_ignores_gemini (kA kB : Option String) :
    statusGet (getServiceStatus (mkAIService kA kB)) "huggingface" = JSVal.undef
      ∧ getAIStatusConfigured (getServiceStatus (mkAIService kA kB))
        = (if (getServiceStatus (mkAIService kA kB)).openai then JSVal.bool true
            else JSVal.undef)
      ∧ getAIStatusConfigured (getServiceStatus (mkAIService none (some "gk")))
        = JSVal.undef
      ∧ (getServiceStatus (mkAIService none (some "gk"))).hasAnyService = true := by
  refine ⟨rfl, ?_, by decide, by decide⟩
  cases h : (getServiceStatus (mkAIService kA kB)).openai <;>
    simp [getAIStatusConfigured, jsOr, jsTruthy, statusGet, h]
